/-
  Verification of the changesets-lab release pipeline scripts.

  Shallow embedding of the two executable components of the repository:
  * `scripts/generate-auto-changeset.mjs` (Change-Detector / Changeset-Writer)
  * `scripts/create-releases.js`          (Tag-Scanner / Release-Publisher)

  JavaScript strings are modelled as Lean `String`; the string primitives
  used by the scripts (`includes`, `startsWith`, `Array.join`, `split`) are
  modelled below on the character lists underlying Lean strings.  External
  effects (the turbo detection subprocess, JSON.parse, the git tag query,
  the gh release subprocess, the step-summary file) are modelled as explicit
  parameters / result records, preserving the scripts' control flow.
-/
import Mathlib

namespace ChangesetsLab

/-! ## JavaScript string primitives -/

/-- Model of JS `String.prototype.includes`: `pat` occurs as a contiguous
substring of `s` (case-sensitive, unanchored). -/
def jsIncludes (s pat : String) : Bool :=
  decide (pat.data <:+: s.data)

/-- Model of JS `String.prototype.startsWith`. -/
def jsStartsWith (s pre : String) : Bool :=
  pre.data.isPrefixOf s.data

/-- Model of JS `Array.prototype.join(sep)`. -/
def jsJoin (sep : String) : List String → String
  | [] => ""
  | [x] => x
  | x :: y :: xs => x ++ sep ++ jsJoin sep (y :: xs)

/-- Model of JS `String.prototype.trim`: drop whitespace from both ends. -/
def jsTrim (s : String) : String :=
  String.mk (((s.data.dropWhile Char.isWhitespace).reverse.dropWhile
    Char.isWhitespace).reverse)

/-- Character-list splitter underlying `jsSplit`: split at every occurrence
of `c`; the result always has at least one (possibly empty) group. -/
def splitCharGroups (c : Char) : List Char → List (List Char)
  | [] => [[]]
  | x :: xs =>
    match splitCharGroups c xs with
    | [] => [[]]
    | g :: gs => if x = c then [] :: g :: gs else (x :: g) :: gs

/-- Model of JS `String.prototype.split` with a one-character separator:
`""` splits to `[""]`, and every separator occurrence starts a new group. -/
def jsSplit (s : String) (c : Char) : List String :=
  (splitCharGroups c s.data).map String.mk

/-! ## generate-auto-changeset.mjs — Change-Detector / Changeset-Writer -/

namespace GenerateAutoChangeset

/-- Version bump type for affected packages (`BUMP_TYPE`). -/
def BUMP_TYPE : String := "minor"

/-- Package name patterns to exclude from changeset generation
(`EXCLUDED_PATTERNS`). -/
def EXCLUDED_PATTERNS : List String :=
  ["typescript-config", "eslint-config"]

/-- `TurboPackage`: one affected package reported by the detection tool. -/
structure TurboPackage where
  name : String
  version : Option String := none
  path : Option String := none
  deriving Repr, DecidableEq

/-- The nested `packages` object of `TurboResult` (`count` and `items` may be
absent in malformed output; JS optional chaining treats them as undefined). -/
structure PackagesInfo where
  count : Option Nat := none
  items : Option (List TurboPackage) := none
  deriving Repr, DecidableEq

/-- `TurboResult`: the parsed JSON output of the turbo detection command. -/
structure TurboResult where
  packages : Option PackagesInfo := none
  deriving Repr, DecidableEq

/-- `EnvironmentConfig`: PR metadata extracted from argv / environment. -/
structure EnvironmentConfig where
  prTitle : String
  prNumber : String
  githubRepo : String
  deriving Repr, DecidableEq

/-- `extractPackagesFromResult`: `result.packages?.items || []`. -/
def extractPackagesFromResult (result : TurboResult) : List TurboPackage :=
  (result.packages.bind (·.items)).getD []

/-- `shouldExcludePackage`: some excluded pattern is a substring of the
package name. -/
def shouldExcludePackage (pkg : TurboPackage) : Bool :=
  EXCLUDED_PATTERNS.any (fun pattern => jsIncludes pkg.name pattern)

/-- `filterExcludedPackages`: drop the packages matching an exclusion
pattern (the console.log in the JS body is effect-only). -/
def filterExcludedPackages (packages : List TurboPackage) : List TurboPackage :=
  packages.filter (fun pkg => !(shouldExcludePackage pkg))

/-- `generateYamlFrontmatter`: one mapping line per package, joined by
newlines. -/
def generateYamlFrontmatter (packages : List TurboPackage) : String :=
  jsJoin "\n" (packages.map (fun pkg => "\"" ++ pkg.name ++ "\": " ++ BUMP_TYPE))

/-- `formatPullRequestReference`: markdown link when the repository is known,
bare `#N` form otherwise, empty string when there is no PR number. -/
def formatPullRequestReference (prNumber githubRepo : String) : String :=
  if prNumber = "" then
    ""
  else if githubRepo ≠ "" then
    "[#" ++ prNumber ++ "](https://github.com/" ++ githubRepo ++ "/pull/"
      ++ prNumber ++ ")\n\n"
  else
    "#" ++ prNumber ++ "\n\n"

/-- `assembleChangesetDocument`: the template literal of the script. -/
def assembleChangesetDocument (yamlFrontmatter prReference description : String) :
    String :=
  "---\n" ++ yamlFrontmatter ++ "\n---\n\n" ++ prReference ++ description ++ "\n"

/-- `buildChangesetContent`. -/
def buildChangesetContent (packages : List TurboPackage)
    (config : EnvironmentConfig) : String :=
  assembleChangesetDocument (generateYamlFrontmatter packages)
    (formatPullRequestReference config.prNumber config.githubRepo)
    config.prTitle

/-- Result of `detectAffectedPackages`: either the caught branch
(`logWarningAndExit`, process exit 0) or the detected package list. -/
inductive DetectResult where
  | exitZero (warning : String)
  | packages (pkgs : List TurboPackage)
  deriving Repr, DecidableEq

/-- `detectAffectedPackages`: the external command (`turboExec`, either an
error message or raw stdout) and `JSON.parse` (`parse`, either a SyntaxError
message or a `TurboResult`) both run inside one try/catch; any error from
either is caught and turned into `logWarningAndExit` (exit 0). -/
def detectAffectedPackages (turboExec : Except String String)
    (parse : String → Except String TurboResult) : DetectResult :=
  match turboExec with
  | .error msg => .exitZero ("Could not detect affected packages: " ++ msg)
  | .ok output =>
    match parse output with
    | .error msg => .exitZero ("Could not detect affected packages: " ++ msg)
    | .ok result => .packages (extractPackagesFromResult result)

/-- Observable outcome of one run of the script: final process exit status
and the changeset content written, if any. -/
structure GenRunResult where
  exitCode : Nat
  fileWritten : Option String
  deriving Repr, DecidableEq

/-- `main` wrapped in the top-level try/catch: `logInfoAndExit` /
`logWarningAndExit` exit 0, a `writeFileSync` failure (`writeOk = false`)
escapes to the top-level catch and exits 1. -/
def generateMain (turboExec : Except String String)
    (parse : String → Except String TurboResult)
    (config : EnvironmentConfig) (writeOk : Bool) : GenRunResult :=
  match detectAffectedPackages turboExec parse with
  | .exitZero _ => { exitCode := 0, fileWritten := none }
  | .packages affectedPackages =>
    if affectedPackages.length = 0 then
      { exitCode := 0, fileWritten := none }
    else
      let includedPackages := filterExcludedPackages affectedPackages
      if includedPackages.length = 0 then
        { exitCode := 0, fileWritten := none }
      else
        let changesetContent := buildChangesetContent includedPackages config
        if writeOk then
          { exitCode := 0, fileWritten := some changesetContent }
        else
          { exitCode := 1, fileWritten := none }

/-- Newline-terminated block of lines (each line followed by one `\n`),
used to phrase the spec-side layout of the ChangeRecord. -/
def linesBlock : List String → String
  | [] => ""
  | l :: ls => l ++ "\n" ++ linesBlock ls

/-- Spec-side rendering of the ChangeRecord.  This definition follows the
wording of the specification (to be compared against
`buildChangesetContent`, which is translated from the source): three
sections in fixed order — a frontmatter block delimited by `---` lines
containing exactly one line `"<name>": <severity>` per package, with the
single globally configured severity applied uniformly; a blank line; then
the reference (if any) immediately followed by the description; then a
trailing newline. -/
def changeRecordSpec (packages : List TurboPackage)
    (config : EnvironmentConfig) : String :=
  "---\n"
    ++ linesBlock (packages.map (fun pkg => "\"" ++ pkg.name ++ "\": " ++ BUMP_TYPE))
    ++ "---\n"
    ++ "\n"
    ++ formatPullRequestReference config.prNumber config.githubRepo
    ++ config.prTitle
    ++ "\n"

end GenerateAutoChangeset

/-! ## create-releases.js — Tag-Scanner / Release-Publisher -/

namespace CreateReleases

/-- Application package prefixes that should have releases
(`RELEASE_APP_PREFIXES`). -/
def RELEASE_APP_PREFIXES : List String := ["docs@", "web@"]

/-- `shouldCreateRelease`: the tag starts with one of the app prefixes. -/
def shouldCreateRelease (tag : String) : Bool :=
  RELEASE_APP_PREFIXES.any (fun prefx => jsStartsWith tag prefx)

/-- `classifyTag`. -/
def classifyTag (tag : String) : String :=
  if shouldCreateRelease tag then "app" else "non-app"

/-- `parseTagOutput`: `output.trim().split('\n').filter(Boolean)` (the
falsy strings removed by `filter(Boolean)` are exactly the empty ones). -/
def parseTagOutput (output : String) : List String :=
  (jsSplit (jsTrim output) '\n').filter (fun line => !line.data.isEmpty)

/-- `extractErrorMessage`: first line of the error message
(`error.message.split('\n')[0]`; JS `split` always yields at least one
element, so index 0 is defined). -/
def extractErrorMessage (message : String) : String :=
  (jsSplit message '\n').headD ""

/-- Hex digit used by the `encodeURIComponent` model (uppercase, as JS). -/
def hexDigitChar (n : Nat) : Char :=
  if n < 10 then Char.ofNat (48 + n) else Char.ofNat (55 + n)

/-- UTF-8 byte sequence of a character, as natural numbers below 256. -/
def utf8Bytes (c : Char) : List Nat :=
  let n := c.toNat
  if n < 128 then [n]
  else if n < 2048 then [192 + n / 64, 128 + n % 64]
  else if n < 65536 then
    [224 + n / 4096, 128 + (n / 64) % 64, 128 + n % 64]
  else
    [240 + n / 262144, 128 + (n / 4096) % 64, 128 + (n / 64) % 64, 128 + n % 64]

/-- Characters `encodeURIComponent` leaves unescaped: alphanumerics and
`- _ . ! ~ * ' ( )`. -/
def isUriUnescaped (c : Char) : Bool :=
  c.isAlphanum ||
    c ∈ ['-', '_', '.', '!', '~', '*', Char.ofNat 39, '(', ')']

/-- Model of JS `encodeURIComponent`: percent-encode every UTF-8 byte of
each character outside the unescaped set. -/
def encodeURIComponent (s : String) : String :=
  String.mk (s.data.foldr (fun c acc =>
    if isUriUnescaped c then c :: acc
    else (utf8Bytes c).foldr (fun b bacc =>
      '%' :: hexDigitChar (b / 16) :: hexDigitChar (b % 16) :: bacc) acc) [])

/-- `generateTagUrl` (the repository identifier is the
`GITHUB_REPOSITORY` environment value, passed explicitly here). -/
def generateTagUrl (githubRepository tag : String) : String :=
  "https://github.com/" ++ githubRepository ++ "/releases/tag/"
    ++ encodeURIComponent tag

/-- The `gh` command line run by `executeReleaseCreation` for a tag. -/
def ghReleaseCommand (tag : String) : String :=
  "gh release create \"" ++ tag ++ "\" --generate-notes"

/-- `ReleaseAttempt`: result of trying to create a release for one tag. -/
structure ReleaseAttempt where
  tag : String
  success : Bool
  skipped : Bool := false
  error : Option String := none
  deriving Repr, DecidableEq

/-- `attemptReleaseCreation`, plus the external commands it invoked.  The
external `gh` call is modelled by `ghResult`: `none` means the subprocess
succeeded, `some msg` means it threw with message `msg`.  The command is
invoked exactly when the tag qualifies (`shouldCreateRelease`). -/
def attemptReleaseCreation (ghResult : String → Option String) (tag : String) :
    ReleaseAttempt × List String :=
  if !(shouldCreateRelease tag) then
    ({ tag := tag, success := false, skipped := true }, [])
  else
    match ghResult tag with
    | none => ({ tag := tag, success := true }, [ghReleaseCommand tag])
    | some errMsg =>
      ({ tag := tag, success := false,
         error := some (extractErrorMessage errMsg) }, [ghReleaseCommand tag])

/-- `ReleaseResult`: the three outcome buckets. -/
structure ReleaseResult where
  created : List String
  skipped : List String
  failed : List String
  deriving Repr, DecidableEq

/-- `categorizeReleaseAttempt`: push the tag into exactly one bucket. -/
def categorizeReleaseAttempt (tag : String) (attempt : ReleaseAttempt)
    (results : ReleaseResult) : ReleaseResult :=
  if attempt.success then
    { results with created := results.created ++ [tag] }
  else if attempt.skipped then
    { results with skipped := results.skipped ++ [tag] }
  else
    { results with failed := results.failed ++ [tag] }

/-- `logReleaseAttemptToSummary`: the bullet line appended to the step
summary for one attempt. -/
def logReleaseAttemptToSummary (githubRepository tag : String)
    (attempt : ReleaseAttempt) : String :=
  if attempt.success then
    "- ✅ [" ++ tag ++ "](" ++ generateTagUrl githubRepository tag ++ ")"
  else if attempt.skipped then
    "- ⏭️ " ++ tag ++ " (skipped: not an app)"
  else
    "- ❌ " ++ tag ++ " (failed: " ++ attempt.error.getD "undefined" ++ ")"

/-- State threaded through the tag loop of `processAllTags`: the result
buckets, the summary lines appended so far, and the release commands
invoked so far. -/
structure TagLoopState where
  results : ReleaseResult
  summary : List String
  releaseCmds : List String
  deriving Repr, DecidableEq

/-- One iteration of the `for (const tag of tags)` loop in
`processAllTags`. -/
def processOneTag (ghResult : String → Option String)
    (githubRepository : String) (st : TagLoopState) (tag : String) :
    TagLoopState :=
  let ac := attemptReleaseCreation ghResult tag
  { results := categorizeReleaseAttempt tag ac.1 st.results,
    summary := st.summary ++ [logReleaseAttemptToSummary githubRepository tag ac.1],
    releaseCmds := st.releaseCmds ++ ac.2 }

/-- `processAllTags`: fold the loop body over the tags, starting from empty
buckets. -/
def processAllTags (ghResult : String → Option String)
    (githubRepository : String) (tags : List String) : TagLoopState :=
  tags.foldl (processOneTag ghResult githubRepository)
    { results := { created := [], skipped := [], failed := [] },
      summary := [], releaseCmds := [] }

/-- `ReleaseStatistics` (duration comes from wall-clock time, passed in). -/
structure ReleaseStatistics where
  totalTags : Nat
  created : Nat
  skipped : Nat
  failed : Nat
  duration : String
  deriving Repr, DecidableEq

/-- `calculateStatistics`. -/
def calculateStatistics (tags : List String) (results : ReleaseResult)
    (duration : String) : ReleaseStatistics :=
  { totalTags := tags.length,
    created := results.created.length,
    skipped := results.skipped.length,
    failed := results.failed.length,
    duration := duration }

/-- `initializeGitHubStepSummary`: lines appended before tag detection. -/
def initializeGitHubStepSummary : List String :=
  ["## 🚀 GitHub Releases Created", ""]

/-- Lines appended by `handleNoTagsFound` before it exits 0. -/
def noTagsFoundSummary : List String :=
  ["## 🚀 GitHub Releases", "",
   "**Status**: ⏭️ No tags found at HEAD", ""]

/-- Lines appended by `writeStatisticsToSummary`. -/
def writeStatisticsToSummary (stats : ReleaseStatistics) : List String :=
  ["", "---", "### 📊 Statistics",
   "- **Total Tags**: " ++ toString stats.totalTags,
   "- **Releases Created**: " ++ toString stats.created,
   "- **Skipped**: " ++ toString stats.skipped,
   "- **Failed**: " ++ toString stats.failed,
   "- **Duration**: " ++ stats.duration ++ "s", ""]

/-- `handleExecutionResult`: exit 1 when any release failed, else exit 0. -/
def handleExecutionResult (results : ReleaseResult) : Nat :=
  if results.failed.length > 0 then 1 else 0

/-- Observable outcome of one run of create-releases.js: final exit status,
the step-summary lines appended (assuming `GITHUB_STEP_SUMMARY` is set),
and the release-creation commands invoked. -/
structure RunResult where
  exitCode : Nat
  summary : List String
  releaseCmds : List String
  deriving Repr, DecidableEq

/-- `main` wrapped in the top-level try/catch.  `gitTagOutput` models the
`git tag --points-at HEAD` subprocess: `.error` means it threw (the throw
escapes `detectTagsAtHead` and reaches the top-level catch, exit 1, after
the summary header was already appended); `.ok raw` is its stdout. -/
def createReleasesMain (ghResult : String → Option String)
    (githubRepository duration : String)
    (gitTagOutput : Except String String) : RunResult :=
  let header := initializeGitHubStepSummary
  match gitTagOutput with
  | .error _ => { exitCode := 1, summary := header, releaseCmds := [] }
  | .ok raw =>
    let tags := parseTagOutput raw
    if tags.length = 0 then
      { exitCode := 0, summary := header ++ noTagsFoundSummary,
        releaseCmds := [] }
    else
      let st := processAllTags ghResult githubRepository tags
      let statistics := calculateStatistics tags st.results duration
      { exitCode := handleExecutionResult st.results,
        summary := header ++ st.summary ++ writeStatisticsToSummary statistics,
        releaseCmds := st.releaseCmds }

end CreateReleases

/-! ## Theorems: Change-Detector / Changeset-Writer -/

namespace GenerateAutoChangeset

/-- Helper: a package matches the exclusion rule iff some configured pattern
is a substring of its name. -/
theorem shouldExcludePackage_iff (pkg : TurboPackage) :
    shouldExcludePackage pkg = true ↔
      ∃ pattern ∈ EXCLUDED_PATTERNS, pattern.data <:+: pkg.name.data := by
  simp [shouldExcludePackage, jsIncludes, List.any_eq_true]

/-- C2: whenever the external detection command fails, or it succeeds and
JSON-parsing its output fails, `detectAffectedPackages` does not propagate
the error: the run terminates with exit status 0 and no change-record file
is written. -/
theorem detection_failure_exits_zero
    (turboExec : Except String String)
    (parse : String → Except String TurboResult)
    (config : EnvironmentConfig) (writeOk : Bool)
    (h : (∃ msg, turboExec = .error msg) ∨
      ∃ out msg, turboExec = .ok out ∧ parse out = .error msg) :
    generateMain turboExec parse config writeOk =
      { exitCode := 0, fileWritten := none } := by
  rcases h with ⟨msg, rfl⟩ | ⟨out, msg, rfl, hp⟩
  · rfl
  · simp [generateMain, detectAffectedPackages, hp]

/-- Witness for C2: a concrete run whose detection command fails exits 0
without writing a file. -/
theorem detection_failure_exits_zero_witness :
    generateMain (.error "Command failed: pnpm turbo ls")
      (fun _ => .ok {}) ⟨"Update affected packages", "", ""⟩ true =
      { exitCode := 0, fileWritten := none } :=
  detection_failure_exits_zero _ _ _ _
    (Or.inl ⟨"Command failed: pnpm turbo ls", rfl⟩)

/-- C1 counterexample: a run in which the external detection command
succeeded and JSON.parse of its output throws terminates with exit status
0 — not 1, as the claim states. -/
theorem parse_error_fatal_counterexample :
    (generateMain (.ok "not json")
      (fun _ => .error "Unexpected token")
      ⟨"Add feature", "", ""⟩ true).exitCode = 0 ∧
    ¬ (generateMain (.ok "not json")
      (fun _ => .error "Unexpected token")
      ⟨"Add feature", "", ""⟩ true).exitCode = 1 :=
  ⟨rfl, by decide⟩

/-- C1 (amended): a JSON-shape/parse error after the external detection
command succeeded is swallowed exactly like a detection failure — the
catch branch of `detectAffectedPackages` turns it into a warning and the
process terminates with exit status 0, writing no change-record file. -/
theorem parse_error_after_detection_swallowed
    (out : String) (parse : String → Except String TurboResult)
    (config : EnvironmentConfig) (writeOk : Bool) (msg : String)
    (hp : parse out = .error msg) :
    detectAffectedPackages (.ok out) parse =
      .exitZero ("Could not detect affected packages: " ++ msg) ∧
    generateMain (.ok out) parse config writeOk =
      { exitCode := 0, fileWritten := none } := by
  constructor
  · simp [detectAffectedPackages, hp]
  · simp [generateMain, detectAffectedPackages, hp]

/-- Witness for the amended C1: a concrete run with successful detection
but unparsable output exits 0 without writing a file. -/
theorem parse_error_after_detection_swallowed_witness :
    detectAffectedPackages (.ok "garbage")
      (fun _ => .error "Unexpected token g in JSON") =
      .exitZero ("Could not detect affected packages: "
        ++ "Unexpected token g in JSON") ∧
    generateMain (.ok "garbage") (fun _ => .error "Unexpected token g in JSON")
      ⟨"Add feature", "", ""⟩ true =
      { exitCode := 0, fileWritten := none } :=
  parse_error_after_detection_swallowed "garbage" _ _ true _ rfl

/-- C3: `filterExcludedPackages` keeps the surviving packages in their
original relative order (the result is a sublist of the input) and removes
a package exactly when some configured pattern is a (case-sensitive,
unanchored) substring of its name. -/
theorem filterExcludedPackages_spec (packages : List TurboPackage) :
    List.Sublist (filterExcludedPackages packages) packages ∧
    filterExcludedPackages packages = packages.filter
      (fun pkg => decide (¬ ∃ pattern ∈ EXCLUDED_PATTERNS,
        pattern.data <:+: pkg.name.data)) := by
  refine ⟨List.filter_sublist _, List.filter_congr ?_⟩
  intro pkg _
  rw [decide_not]
  congr 1
  rw [Bool.eq_iff_iff, shouldExcludePackage_iff]
  simp

/-- Helper: joining lines with `"\n"` and appending a final `"\n"` yields
the newline-terminated block, for a nonempty line list. -/
theorem jsJoin_newline_append (l : List String) (h : l ≠ []) :
    jsJoin "\n" l ++ "\n" = linesBlock l := by
  induction l with
  | nil => exact absurd rfl h
  | cons x xs ih =>
    cases xs with
    | nil => simp [jsJoin, linesBlock, String.append_empty]
    | cons y ys =>
      rw [jsJoin, linesBlock, ← ih (by simp), String.append_assoc]

/-- C6: with a reference number and a repository, the PR reference renders
as a markdown link to the repository's `pull/<number>` URL; with a
reference but no repository, it renders the bare `#<number>` form; with no
reference, it renders the empty string. -/
theorem formatPullRequestReference_spec (n repo : String)
    (hn : n ≠ "") (hrepo : repo ≠ "") :
    formatPullRequestReference n repo =
      "[#" ++ n ++ "](https://github.com/" ++ repo ++ "/pull/" ++ n
        ++ ")\n\n" ∧
    formatPullRequestReference n "" = "#" ++ n ++ "\n\n" ∧
    ∀ r : String, formatPullRequestReference "" r = "" := by
  refine ⟨?_, ?_, fun r => rfl⟩
  · simp [formatPullRequestReference, hn, hrepo]
  · simp [formatPullRequestReference, hn]

/-- Witness for C6 at reference `42` and repository `org/repo`. -/
theorem formatPullRequestReference_spec_witness :
    formatPullRequestReference "42" "org/repo" =
      "[#" ++ "42" ++ "](https://github.com/" ++ "org/repo" ++ "/pull/"
        ++ "42" ++ ")\n\n" ∧
    formatPullRequestReference "42" "" = "#" ++ "42" ++ "\n\n" ∧
    ∀ r : String, formatPullRequestReference "" r = "" :=
  formatPullRequestReference_spec "42" "org/repo" (by decide) (by decide)

/-- C5: for every non-empty package list, the changeset content built by
the script coincides with the spec-side ChangeRecord layout: a `---`
delimited frontmatter block with exactly one `"<name>": <severity>` line
per package (the single configured severity applied uniformly), a blank
line, the reference (if any) immediately followed by the description, and
a trailing newline. -/
theorem buildChangesetContent_spec (packages : List TurboPackage)
    (config : EnvironmentConfig) (h : packages ≠ []) :
    buildChangesetContent packages config = changeRecordSpec packages config := by
  have hL : packages.map
      (fun pkg => "\"" ++ pkg.name ++ "\": " ++ BUMP_TYPE) ≠ [] := by
    simpa using h
  unfold buildChangesetContent changeRecordSpec assembleChangesetDocument
    generateYamlFrontmatter
  rw [← jsJoin_newline_append _ hL,
    show ("\n---\n\n" : String) = "\n" ++ "---\n" ++ "\n" by decide]
  simp only [String.append_assoc]

/-- Witness for C5 at a concrete two-package changeset. -/
theorem buildChangesetContent_spec_witness :
    buildChangesetContent [⟨"docs", none, none⟩, ⟨"web", none, none⟩]
      ⟨"Add feature", "42", "org/repo"⟩ =
    changeRecordSpec [⟨"docs", none, none⟩, ⟨"web", none, none⟩]
      ⟨"Add feature", "42", "org/repo"⟩ :=
  buildChangesetContent_spec _ _ (by decide)

end GenerateAutoChangeset

/-! ## Theorems: Tag-Scanner / Release-Publisher -/

namespace CreateReleases

/-- C4: the tag classifier marks a tag release-eligible exactly when it
starts with one of the configured allow-list prefixes `docs@` / `web@`;
the function is total (defined for every string, by construction) and
deterministic — equal inputs yield equal outputs. -/
theorem shouldCreateRelease_spec (t : String) :
    (shouldCreateRelease t = true ↔
      "docs@".data <+: t.data ∨ "web@".data <+: t.data) ∧
    ∀ t2 : String, t2 = t → shouldCreateRelease t2 = shouldCreateRelease t := by
  constructor
  · simp [shouldCreateRelease, RELEASE_APP_PREFIXES, jsStartsWith,
      List.isPrefixOf_iff_prefix]
  · intro t2 ht
    rw [ht]

/-- Witness for C4: eligibility decided at two concrete tags. -/
theorem shouldCreateRelease_spec_witness :
    shouldCreateRelease "web@2.1.0" = true ∧
    shouldCreateRelease "@repo/ui@1.0.0" = false :=
  ⟨(shouldCreateRelease_spec "web@2.1.0").1.mpr (Or.inr (by decide)),
    by decide⟩

/-- Helper: closed form of the tag-processing loop from an arbitrary loop
state — each bucket, the summary lines and the invoked commands grow by
the corresponding selection from the processed tags, in order. -/
theorem processAllTags_go (ghResult : String → Option String) (repo : String)
    (tags : List String) (st : TagLoopState) :
    tags.foldl (processOneTag ghResult repo) st =
      { results :=
          { created := st.results.created ++ tags.filter
              (fun t => shouldCreateRelease t && (ghResult t).isNone),
            skipped := st.results.skipped ++ tags.filter
              (fun t => !(shouldCreateRelease t)),
            failed := st.results.failed ++ tags.filter
              (fun t => shouldCreateRelease t && (ghResult t).isSome) },
        summary := st.summary ++ tags.map
          (fun t => logReleaseAttemptToSummary repo t
            (attemptReleaseCreation ghResult t).1),
        releaseCmds := st.releaseCmds ++
          (tags.filter (fun t => shouldCreateRelease t)).map ghReleaseCommand } := by
  induction tags generalizing st with
  | nil => simp
  | cons t ts ih =>
    rw [List.foldl_cons, ih]
    by_cases hc : shouldCreateRelease t = true
    · cases hg : ghResult t with
      | none =>
        simp [processOneTag, attemptReleaseCreation, categorizeReleaseAttempt,
          hc, hg, List.filter_cons]
      | some e =>
        simp [processOneTag, attemptReleaseCreation, categorizeReleaseAttempt,
          hc, hg, List.filter_cons]
    · rw [Bool.not_eq_true] at hc
      simp [processOneTag, attemptReleaseCreation, categorizeReleaseAttempt,
        hc, List.filter_cons]

/-- Helper: exit-code mapping of `handleExecutionResult`. -/
theorem handleExecutionResult_iff (results : ReleaseResult) :
    (handleExecutionResult results = 1 ↔ 0 < results.failed.length) ∧
    (handleExecutionResult results = 0 ↔ results.failed.length = 0) := by
  unfold handleExecutionResult
  split <;> rename_i hf <;> constructor <;> constructor <;> intro h <;> omega

/-- C7: tags are processed independently, with no short-circuiting — the
created bucket collects exactly the eligible tags whose release command
succeeded (regardless of failures on other tags), the skipped bucket the
non-eligible tags, the failed bucket the eligible tags whose command
failed; one report line is appended per tag in processing order; and the
process exit code is 1 iff the failed count is positive (otherwise 0). -/
theorem processAllTags_independent (ghResult : String → Option String)
    (repo : String) (tags : List String) :
    ((processAllTags ghResult repo tags).results.created =
      tags.filter (fun t => shouldCreateRelease t && (ghResult t).isNone)) ∧
    ((processAllTags ghResult repo tags).results.skipped =
      tags.filter (fun t => !(shouldCreateRelease t))) ∧
    ((processAllTags ghResult repo tags).results.failed =
      tags.filter (fun t => shouldCreateRelease t && (ghResult t).isSome)) ∧
    ((processAllTags ghResult repo tags).summary =
      tags.map (fun t => logReleaseAttemptToSummary repo t
        (attemptReleaseCreation ghResult t).1)) ∧
    (handleExecutionResult (processAllTags ghResult repo tags).results = 1 ↔
      0 < (processAllTags ghResult repo tags).results.failed.length) ∧
    (handleExecutionResult (processAllTags ghResult repo tags).results = 0 ↔
      (processAllTags ghResult repo tags).results.failed.length = 0) := by
  unfold processAllTags
  rw [processAllTags_go]
  exact ⟨by simp, by simp, by simp, by simp,
    (handleExecutionResult_iff _).1, (handleExecutionResult_iff _).2⟩

/-- Helper: every tag lands in exactly one of the three outcome buckets, so
the bucket sizes sum to the number of tags. -/
theorem filter_outcome_partition (ghResult : String → Option String)
    (tags : List String) :
    (tags.filter (fun t => shouldCreateRelease t && (ghResult t).isNone)).length +
      (tags.filter (fun t => !(shouldCreateRelease t))).length +
      (tags.filter (fun t => shouldCreateRelease t && (ghResult t).isSome)).length =
      tags.length := by
  induction tags with
  | nil => rfl
  | cons t ts ih =>
    simp only [List.filter_cons, List.length_cons]
    by_cases hc : shouldCreateRelease t = true
    · cases hg : ghResult t with
      | none => simp [hc, hg]; omega
      | some e => simp [hc, hg]; omega
    · rw [Bool.not_eq_true] at hc
      simp [hc]; omega

/-- C9: after processing, the statistics always satisfy
`totalTags = created + skipped + failed`. -/
theorem statistics_partition (ghResult : String → Option String)
    (repo duration : String) (tags : List String) :
    (calculateStatistics tags (processAllTags ghResult repo tags).results
      duration).totalTags =
    (calculateStatistics tags (processAllTags ghResult repo tags).results
      duration).created +
    (calculateStatistics tags (processAllTags ghResult repo tags).results
      duration).skipped +
    (calculateStatistics tags (processAllTags ghResult repo tags).results
      duration).failed := by
  unfold processAllTags
  rw [processAllTags_go]
  simpa [calculateStatistics] using
    (filter_outcome_partition ghResult tags).symm

/-- C8: when the git tag query returns zero tags at HEAD, the run exits 0
through the distinct no-tags report path, and no release-creation command
is invoked. -/
theorem noTags_exits_zero (ghResult : String → Option String)
    (repo duration raw : String) (h : parseTagOutput raw = []) :
    (createReleasesMain ghResult repo duration (.ok raw)).exitCode = 0 ∧
    (createReleasesMain ghResult repo duration (.ok raw)).releaseCmds = [] ∧
    "**Status**: ⏭️ No tags found at HEAD" ∈
      (createReleasesMain ghResult repo duration (.ok raw)).summary := by
  simp [createReleasesMain, h, initializeGitHubStepSummary, noTagsFoundSummary]

/-- Witness for C8: a run whose git query returns empty output. -/
theorem noTags_exits_zero_witness :
    (createReleasesMain (fun _ => none) "owner/repo" "0.1"
      (.ok "")).exitCode = 0 ∧
    (createReleasesMain (fun _ => none) "owner/repo" "0.1"
      (.ok "")).releaseCmds = [] ∧
    "**Status**: ⏭️ No tags found at HEAD" ∈
      (createReleasesMain (fun _ => none) "owner/repo" "0.1"
        (.ok "")).summary :=
  noTags_exits_zero _ _ _ _ (by decide)

/-- C10: the `## 🚀 GitHub Releases Created` header is appended before tag
detection, so a zero-tags run produces that header followed by the second
`## 🚀 GitHub Releases` / no-tags section (not the no-tags report alone),
and even a run whose git query fails has already written the header. -/
theorem summary_header_before_detection (ghResult : String → Option String)
    (repo duration raw gitError : String) (h : parseTagOutput raw = []) :
    (createReleasesMain ghResult repo duration (.ok raw)).summary =
      ["## 🚀 GitHub Releases Created", "",
       "## 🚀 GitHub Releases", "",
       "**Status**: ⏭️ No tags found at HEAD", ""] ∧
    (createReleasesMain ghResult repo duration (.error gitError)).summary =
      ["## 🚀 GitHub Releases Created", ""] := by
  constructor
  · simp [createReleasesMain, h, initializeGitHubStepSummary, noTagsFoundSummary]
  · rfl

/-- Witness for C10: the two summaries at a concrete empty-output run and a
concrete failing git query. -/
theorem summary_header_before_detection_witness :
    (createReleasesMain (fun _ => none) "owner/repo" "0.1"
      (.ok "")).summary =
      ["## 🚀 GitHub Releases Created", "",
       "## 🚀 GitHub Releases", "",
       "**Status**: ⏭️ No tags found at HEAD", ""] ∧
    (createReleasesMain (fun _ => none) "owner/repo" "0.1"
      (.error "fatal: not a git repository")).summary =
      ["## 🚀 GitHub Releases Created", ""] :=
  summary_header_before_detection _ _ _ _ _ (by decide)

end CreateReleases

end ChangesetsLab
